import Mathlib

/-!
Verification of the receipt-extraction pipeline in `src/app.py`.

The pipeline under scrutiny (the spec's §2 components):
* Prompt Builder      — `app.py` lines 35-50 (`prompt_text` and the
  `expected_items > 0` constraint appended to it);
* Extraction Client   — lines 52-69 (the Groq chat-completions call; the
  remote service itself is external, so it is a parameter of the model);
* JSON Locator/Parser — lines 71-77 (`re.search` of a greedy brace span
  followed by `json.loads`; the stdlib JSON decoder is external, so it is
  a parameter of the model);
* Schema Normalizer + Aggregator — lines 122-148 (the `summary_df`
  construction, the items table and the `groupby` aggregate);
* top-level error handling — lines 115-160 (the `try`/`except` clauses);
* Cache               — the `st.cache_data(ttl=3600)` decorator on line 31
  (its semantics live in Streamlit, outside this repository, so it is
  modelled from the spec).

Numbers are embedded as exact rationals (`ℚ`).  Python exceptions are
embedded as an explicit error type `PyErr`, and fallible code returns
`Except PyErr _`.
-/

/-- A JSON value as produced by `json.loads`: numbers (Python int/float,
embedded as `ℚ`), strings, booleans, null, arrays and objects. -/
inductive JsonVal where
  | num (q : ℚ)
  | str (s : String)
  | boolV (b : Bool)
  | null
  | arr (xs : List JsonVal)
  | obj (kvs : List (String × JsonVal))

/-- A decoded JSON object: key/value pairs.  Objects decoded from JSON text
have pairwise-distinct keys (Python dicts), so first-match lookup below is
exactly dict access. -/
abbrev Mapping := List (String × JsonVal)

/-- Dictionary lookup: `m.get(k)` returning `None` when the key is absent. -/
def lookupKey (m : Mapping) (k : String) : Option JsonVal :=
  match m with
  | [] => none
  | (k2, v) :: rest => if k2 = k then some v else lookupKey rest k

/-- The Python exceptions that the code in `app.py` can raise, as far as its
control flow distinguishes them.  `jsonDecodeError` models
`json.JSONDecodeError` (raised by `json.loads`); `keyError` models `KeyError`
(raised by `d[k]` on a dict missing `k`, and by `df[c]` on a frame missing
column `c`); `authError` models `groq.AuthenticationError`; `apiError`
models any other exception raised by the Groq client (transport or remote
failure that is not an authentication rejection). -/
inductive PyErr where
  | valueError (msg : String)
  | typeError
  | jsonDecodeError
  | keyError (k : String)
  | authError
  | apiError

/-! ## Prompt Builder (`app.py` lines 35-50) -/

/-- The fixed instruction string assigned to `prompt_text` on lines 35-44:
it enumerates the fields to extract and directs the model to return only
JSON. -/
def basePromptText : String :=
  "Extract the following receipt details from the provided text response and return them as a structured JSON object. Return only JSON, no extra text or explanations\n\n    Fields to extract:\n    - Company\n    - Date\n    - Items (Description, Quantity, Unit Price, Total)\n    - Deduction \n    - Total\n    - ProductType one of the following categories: food, alcoholic drink, petrol, drugstore product, cloth, electric device, medicine, other. If not identified use \"unknown\".\n    "

/-- The exact-count constraint appended on lines 45-50 when
`expected_items > 0` (an f-string interpolating the count twice). -/
def countConstraintText (expectedItems : Nat) : String :=
  "\n    IMPORTANT: There are exactly " ++ toString expectedItems ++ " items in the receipt. \n    Do not infer or hallucinate additional items. \n    Return exactly " ++ toString expectedItems ++ " items in the \x27Items\x27 field of the JSON.\n    "

/-- The JSON-only directive contained in the fixed instruction. -/
def jsonOnlyDirective : String :=
  "Return only JSON, no extra text or explanations"

/-- The prompt sent to the model: the fixed instruction, with the
exact-count constraint appended iff `expected_items > 0`
(lines 35-50). -/
def promptText (expectedItems : Nat) : String :=
  basePromptText ++ (if expectedItems > 0 then countConstraintText expectedItems else "")

/-! ## JSON Locator/Parser (`app.py` lines 71-77)

`re.search(r'\x7b.*\x7d', result_str, re.DOTALL)` matches, when possible,
the span from the first opening brace to the last closing brace of the
text: a match must start at an opening brace, `re.search` takes the
leftmost possible start, and the greedy `.*` (with `DOTALL` spanning
newlines) extends the match to the last closing brace.  We embed this by
computing the index of the first opening brace and the index of the last
closing brace directly. -/

/-- The opening-brace character. -/
def openBrace : Char := Char.ofNat 123

/-- The closing-brace character. -/
def closeBrace : Char := Char.ofNat 125

/-- Index of the first opening brace of the text, if any. -/
def firstBrace : List Char → Option Nat
  | [] => none
  | c :: cs => if c = openBrace then some 0 else (firstBrace cs).map (· + 1)

/-- Index of the last closing brace of the text, if any. -/
def lastClose : List Char → Option Nat
  | [] => none
  | c :: cs =>
    match lastClose cs with
    | some j => some (j + 1)
    | none => if c = closeBrace then some 0 else none

/-- `re.search(r'\x7b.*\x7d', s, re.DOTALL)`: the span from the first
opening brace through the last closing brace, provided the latter comes
after the former; `none` when the regex does not match (line 72). -/
def locateSpan (s : String) : Option String :=
  match firstBrace s.toList, lastClose s.toList with
  | some i, some j =>
    if i < j then some (String.mk ((s.toList.drop i).take (j - i + 1))) else none
  | _, _ => none

/-- Lines 71-77: locate the greedy brace span in the raw model text and
decode it.  No span ⇒ `ValueError("No valid JSON found in model
response.")` (line 74); span found but `json.loads` fails ⇒
`json.JSONDecodeError` (line 76), with no repair attempted.  The stdlib
decoder is external to the repository, so it is a parameter `decode`
(returning `none` when `json.loads` raises). -/
def locateAndParse (decode : String → Option JsonVal) (resultStr : String) :
    Except PyErr JsonVal :=
  match locateSpan resultStr with
  | none => .error (.valueError "No valid JSON found in model response.")
  | some span =>
    match decode span with
    | none => .error .jsonDecodeError
    | some j => .ok j

/-! ## Extraction Client (`app.py` lines 52-69)

The Groq chat-completions call is a single round-trip carrying the prompt
and the image (base64-encoded into a data URL; the encoding is part of the
transport and is folded into the service parameter).  The remote service is
external to the repository, so it is modelled as a function from the
request data to one of three outcomes. -/

/-- Outcome of the remote completion call: the text of
`response.choices[0].message.content`, or an `AuthenticationError`, or any
other client/transport failure. -/
inductive ExtractOutcome where
  | success (text : String)
  | authRejected
  | serviceFailure

/-- The type of the external extraction service: a response outcome for
each (image bytes, api key, prompt text) request. -/
abbrev Service := List Nat → String → String → ExtractOutcome

/-- `process_receipt` (lines 32-77) without the cache decorator: build the
prompt, call the service, then locate and decode the JSON span of the raw
response.  `AuthenticationError` and other client failures propagate as
exceptions (`Except.error`). -/
def processReceipt (decode : String → Option JsonVal) (service : Service)
    (imageBytes : List Nat) (apiKey : String) (expectedItems : Nat) :
    Except PyErr JsonVal :=
  match service imageBytes apiKey (promptText expectedItems) with
  | .authRejected => .error .authError
  | .serviceFailure => .error .apiError
  | .success resultStr => locateAndParse decode resultStr

/-! ## Schema Normalizer and Aggregator (`app.py` lines 122-148)

Lines 122-129 build the items table and the one-row summary table; lines
142-148 attempt the per-product-type aggregate inside its own
`try`/`except`.  pandas conventions embedded here:
* `pd.DataFrame(rows)` over a list of dicts keeps each row's keys; a cell
  absent from a row is NaN (here: absent from the row's mapping);
* `df[c]` raises `KeyError` when no row has key `c` (column absent);
* `Series.sum()` skips NaN/None cells; an all-numeric column sums
  numerically (Python `bool` counts as a number), an all-string column
  concatenates, and a mixed column raises `TypeError`;
* `-` between a non-number and anything raises `TypeError`;
* `groupby(c)` drops rows whose key cell is NaN/None and raises
  `TypeError` on unhashable key values (lists/dicts); summing a group of
  strings concatenates, and the subsequent `st.bar_chart` fails on a
  non-numeric aggregate — inside the line-142 `try`, every such failure is
  caught by the bare `except` and only the warning is shown. -/

/-- Numeric view of a JSON value under Python arithmetic: numbers are
themselves and booleans count as 1/0; everything else is non-numeric. -/
def asNumQ : JsonVal → Option ℚ
  | .num q => some q
  | .boolV b => some (if b then 1 else 0)
  | _ => none

/-- Whether a value is JSON null (pandas: a missing/NaN cell). -/
def JsonVal.isNull : JsonVal → Bool
  | .null => true
  | _ => false

/-- Whether a value is unhashable in Python (list or dict): `groupby` on
such keys raises `TypeError`. -/
def JsonVal.unhashable : JsonVal → Bool
  | .arr _ => true
  | .obj _ => true
  | _ => false

/-- Equality of hashable JSON scalars, used to bucket `groupby` keys.
Arrays and objects never reach this test (they are rejected as unhashable
first). -/
def flatEq : JsonVal → JsonVal → Bool
  | .num a, .num b => decide (a = b)
  | .str a, .str b => decide (a = b)
  | .boolV a, .boolV b => decide (a = b)
  | .null, .null => true
  | _, _ => false

/-- `pd.DataFrame(result_json["Items"])` (line 122) for the shape the
pipeline expects: a JSON array of objects becomes the list of row
mappings.  Any other shape is embedded as a `ValueError`; this abstracts
the several pandas constructor failure modes for non-tabular input, all of
which are fatal and caught by the same top-level `except` clause. -/
def toRows : JsonVal → Except PyErr (List Mapping)
  | .arr xs =>
    match allObj xs with
    | some rows => .ok rows
    | none => .error (.valueError "DataFrame construction")
  | _ => .error (.valueError "DataFrame construction")
where
  allObj : List JsonVal → Option (List Mapping)
    | [] => some []
    | .obj kvs :: rest => (allObj rest).map (kvs :: ·)
    | _ => none

/-- `items_df[c]` (line 123): `KeyError` when no row has the key (the
column does not exist); otherwise the present, non-null cells of the
column (absent and null cells are NaN and are skipped by `sum`). -/
def getColumn (rows : List Mapping) (c : String) : Except PyErr (List JsonVal) :=
  if rows.all (fun r => (lookupKey r c).isNone) then
    .error (.keyError c)
  else
    .ok ((rows.filterMap (fun r => lookupKey r c)).filter (fun v => !v.isNull))

/-- `Series.sum()` over the (NaN-stripped) cells of an object column: an
all-numeric column adds up (empty sums to 0), an all-string column
concatenates, and a mixed column raises `TypeError`. -/
def sumColumn (vals : List JsonVal) : Except PyErr JsonVal :=
  if vals.all (fun v => (asNumQ v).isSome) then
    .ok (.num ((vals.filterMap asNumQ).sum))
  else if vals.all (fun v => match v with | .str _ => true | _ => false) then
    .ok (.str (vals.foldl (fun acc v => match v with | .str s => acc ++ s | _ => acc) ""))
  else
    .error .typeError

/-- Python subtraction `a - b` (line 127): numeric minus numeric; any
other operand combination raises `TypeError`. -/
def pySub (a b : JsonVal) : Except PyErr JsonVal :=
  match asNumQ a, asNumQ b with
  | some x, some y => .ok (.num (x - y))
  | _, _ => .error .typeError

/-- `d.get(k, default)` (lines 125, 126, 128). -/
def dictGet (m : Mapping) (k : String) (dflt : JsonVal) : JsonVal :=
  (lookupKey m k).getD dflt

/-- First-occurrence deduplication of (hashable) group keys. -/
def dedupFlat (l : List JsonVal) : List JsonVal :=
  l.foldl (fun acc k => if acc.any (fun j => flatEq j k) then acc else acc ++ [k]) []

/-- The per-group sums of the `"Total"` cells for each key in `keys`:
`none` as soon as some group's (NaN-stripped) cells are not all numeric —
`groupby(...).sum()` then concatenates strings or raises, and the chart on
line 146 fails on a non-numeric aggregate, landing in the line-147
`except`. -/
def groupSums (keyed : List (JsonVal × Mapping)) : List JsonVal → Option (List (JsonVal × ℚ))
  | [] => some []
  | k :: ks =>
    let cells := (((keyed.filter (fun kr => flatEq kr.1 k)).map (·.2)).filterMap
        (fun r => lookupKey r "Total")).filter (fun v => !v.isNull)
    if cells.all (fun v => (asNumQ v).isSome) then
      (groupSums keyed ks).map (((k, (cells.filterMap asNumQ).sum)) :: ·)
    else
      none

/-- Lines 142-146: `items_df.groupby("ProductType")["Total"].sum()` and
the chart drawn from it.  `none` means the block raised and was caught by
the line-147 `except`, i.e. only the warning is shown: the `ProductType`
column is absent from every row (`KeyError`), or some present key value is
unhashable (`TypeError`), or some group total is non-numeric (chart
failure).  Rows whose `ProductType` cell is absent or null are dropped, as
`groupby` drops NaN keys. -/
def groupTotals (rows : List Mapping) : Option (List (JsonVal × ℚ)) :=
  if rows.all (fun r => (lookupKey r "ProductType").isNone) then
    none
  else
    let keyed := rows.filterMap (fun r =>
      (lookupKey r "ProductType").bind (fun k =>
        if k.isNull then none else some (k, r)))
    if keyed.any (fun kr => kr.1.unhashable) then
      none
    else
      groupSums keyed (dedupFlat (keyed.map (·.1)))

/-- The one-row summary table built on lines 124-129. -/
structure SummaryRecord where
  company : JsonVal
  date : JsonVal
  discount : JsonVal
  total : JsonVal

/-- Everything the success path renders and offers for download:
the summary table, the items table, and — when the line-142 `try`
succeeded — the per-product-type aggregate; `categoryWarning` records
that the line-148 warning was shown instead. -/
structure DisplayOut where
  summary : SummaryRecord
  items : List Mapping
  category : Option (List (JsonVal × ℚ))
  categoryWarning : Bool

/-- Lines 122-148 applied to the decoded JSON value: build the items
table (line 122), sum its `Total` column (line 123), build the summary row
(lines 124-129, reading `Total` with dict indexing on line 127 and with
`.get` defaults on lines 125, 126 and 128), then attempt the category
aggregate (lines 142-148), whose failure only sets the warning.  Indexing
a decoded value that is not an object raises `TypeError`
(non-subscriptable or non-string subscript). -/
def renderOutputs : JsonVal → Except PyErr DisplayOut
  | .obj kvs => do
    let itemsVal ← match lookupKey kvs "Items" with
      | some v => Except.ok v
      | none => Except.error (.keyError "Items")
    let rows ← toRows itemsVal
    let col ← getColumn rows "Total"
    let totalWithoutDiscount ← sumColumn col
    let recTotal ← match lookupKey kvs "Total" with
      | some v => Except.ok v
      | none => Except.error (.keyError "Total")
    let discount ← pySub totalWithoutDiscount recTotal
    let grouped := groupTotals rows
    Except.ok {
      summary := {
        company := dictGet kvs "Company" (.str "Unknown")
        date := dictGet kvs "Date" (.str "Unknown")
        discount := discount
        total := dictGet kvs "Total" (.str "Unknown") }
      items := rows
      category := grouped
      categoryWarning := grouped.isNone }
  | _ => .error .typeError

/-! ## Top-level request handling (`app.py` lines 115-160) -/

/-- What the user ends up seeing for one submission:
* `rendered` — the success path, lines 122-154;
* `authErrorMessage` — the line-157 message ("Invalid API key…"), from the
  line-156 `except AuthenticationError`;
* `processingErrorMessage` — the line-160 message ("Receipt processing
  failed. Please upload a clearer image."), from the line-159
  `except (ValueError, TypeError, json.JSONDecodeError)`;
* `unhandled e` — an exception matched by neither clause: it escapes the
  `try` and aborts the script run with a traceback instead of a
  user-facing message. -/
inductive Outcome where
  | rendered (out : DisplayOut)
  | authErrorMessage
  | processingErrorMessage
  | unhandled (e : PyErr)

/-- The `try`/`except` of lines 118-160: run the pipeline and dispatch any
exception against the two `except` clauses in order
(`AuthenticationError` first, then `(ValueError, TypeError,
json.JSONDecodeError)`; `json.JSONDecodeError` is also a `ValueError`
subclass in Python, caught by the same clause either way).  `KeyError` and
non-authentication Groq client errors match neither clause. -/
def handleRequest (decode : String → Option JsonVal) (service : Service)
    (imageBytes : List Nat) (apiKey : String) (expectedItems : Nat) : Outcome :=
  match (processReceipt decode service imageBytes apiKey expectedItems).bind renderOutputs with
  | .ok out => .rendered out
  | .error .authError => .authErrorMessage
  | .error (.valueError _) => .processingErrorMessage
  | .error .typeError => .processingErrorMessage
  | .error .jsonDecodeError => .processingErrorMessage
  | .error e => .unhandled e

/-! ## Cache (`app.py` line 31)

`@st.cache_data(ttl=3600)` memoizes `process_receipt` per argument tuple.
Its semantics live in Streamlit, outside this repository. -/

/-- Modelled from the spec: the state of the `st.cache_data` memoization
layer wrapping `process_receipt` — entries keyed by the argument tuple
(image bytes, api key, expected item count), each carrying the time it was
written and the memoized pipeline output.  Entries are immutable once
written and expire after the time-to-live window; failures are not
memoized. -/
structure CacheState where
  entries : List ((List Nat × String × Nat) × Nat × JsonVal)

/-- The time-to-live of a cache entry, in seconds (`ttl=3600`, line 31). -/
def cacheTTL : Nat := 3600

/-- Modelled from the spec: cache lookup — the stored value for the key,
provided it was written less than `cacheTTL` seconds ago. -/
def lookupCache (c : CacheState) (key : List Nat × String × Nat) (now : Nat) :
    Option JsonVal :=
  ((c.entries.find? (fun e => decide (e.1 = key) && decide (now - e.2.1 < cacheTTL))).map
    (fun e => e.2.2))

/-- Modelled from the spec: `process_receipt` as decorated on line 31.  On
a fresh-enough cache entry for the argument tuple, return it without
invoking the pipeline; otherwise run the pipeline (one billable service
call), memoizing the output on success.  The returned `Bool` records
whether the service was invoked. -/
def cachedProcessReceipt (decode : String → Option JsonVal) (service : Service)
    (c : CacheState) (now : Nat)
    (imageBytes : List Nat) (apiKey : String) (expectedItems : Nat) :
    Except PyErr JsonVal × CacheState × Bool :=
  match lookupCache c (imageBytes, apiKey, expectedItems) now with
  | some v => (.ok v, c, false)
  | none =>
    match processReceipt decode service imageBytes apiKey expectedItems with
    | .ok v => (.ok v, ⟨((imageBytes, apiKey, expectedItems), now, v) :: c.entries⟩, true)
    | .error e => (.error e, c, true)

/-! ## Auxiliary definitions used by the theorems below -/

/-- Removal of one key from a mapping: `m` without its `k` entry.  Used to
state that the pipeline is insensitive to the `Deduction` field. -/
def removeKey (m : Mapping) (k : String) : Mapping :=
  match m with
  | [] => []
  | kv :: rest => if kv.1 = k then removeKey rest k else kv :: removeKey rest k

/-- A decoded receipt with every field present except the record-level
`Total`. -/
def c2MissingTotal : JsonVal :=
  .obj [("Company", .str "ACME"), ("Date", .str "2024-01-01"),
        ("Items", .arr [.obj [("Description", .str "Bread"), ("Quantity", .num 1),
          ("Unit Price", .num 2), ("Total", .num 2), ("ProductType", .str "food")]])]

/-- A decoded receipt with a numeric `Total` and an empty `Items` array. -/
def c1EmptyItems : JsonVal :=
  .obj [("Items", .arr []), ("Total", .num 2)]

/-- A decoded receipt in which one item total is the string "N/A" and the
other is numeric. -/
def c4MixedTotals : JsonVal :=
  .obj [("Items", .arr [.obj [("Total", .str "N/A"), ("ProductType", .str "food")],
                        .obj [("Total", .num 2), ("ProductType", .str "food")]]),
        ("Total", .num 2)]

/-- A decoded receipt containing `total` and `items` but neither `company`
nor `date`, with an empty `Items` array. -/
def c6EmptyItemsNoCompany : JsonVal :=
  .obj [("Items", .arr []), ("Total", .num 3)]

/-- A decoded receipt whose single item has no `ProductType` key. -/
def c9NoProductType : JsonVal :=
  .obj [("Items", .arr [.obj [("Total", .num 2)]]), ("Total", .num 2)]

/-- A small decoded receipt used to exercise the cache. -/
def c8Value : JsonVal := .obj [("Total", .num 7), ("Items", .arr [])]

/-- A decoder stub standing for `json.loads` succeeding with `c8Value`. -/
def c8Decode : String → Option JsonVal := fun _ => some c8Value

/-- A service stub returning a fixed raw model text. -/
def c8Service : Service := fun _ _ _ => .success "x\x7by\x7dz"

/-! ## Characterization of the brace-span locator -/

/-- `firstBrace` finds exactly the first index holding an opening brace. -/
theorem firstBrace_eq_some_iff (cs : List Char) (i : Nat) :
    firstBrace cs = some i ↔
      cs.get? i = some openBrace ∧ ∀ k, k < i → cs.get? k ≠ some openBrace := by
  induction cs generalizing i with
  | nil => simp [firstBrace]
  | cons c cs ih =>
    by_cases hc : c = openBrace
    · subst hc
      simp only [firstBrace, if_pos rfl]
      constructor
      · rintro ⟨rfl⟩
        exact ⟨rfl, fun k hk => absurd hk (by omega)⟩
      · rintro ⟨h1, h2⟩
        cases i with
        | zero => rfl
        | succ i => exact absurd rfl (h2 0 (by omega))
    · simp only [firstBrace, if_neg hc]
      have step : ∀ m, Option.map (fun x => x + 1) (firstBrace cs) = some m ↔
          ∃ p, firstBrace cs = some p ∧ p + 1 = m := by
        intro m; cases hfb : firstBrace cs <;> simp
      cases i with
      | zero =>
        rw [step 0]
        simp only [List.get?_cons_zero]
        constructor
        · rintro ⟨p, _, hp⟩; omega
        · rintro ⟨h1, _⟩; exact absurd (Option.some.inj h1) hc
      | succ i =>
        rw [step (i + 1)]
        constructor
        · rintro ⟨p, hp, hpi⟩
          rw [show p = i by omega] at hp
          obtain ⟨h1, h2⟩ := (ih i).mp hp
          refine ⟨by simpa using h1, fun k hk => ?_⟩
          cases k with
          | zero =>
            simp only [List.get?_cons_zero]
            intro hcontra; exact hc (Option.some.inj hcontra)
          | succ k => simpa using h2 k (by omega)
        · rintro ⟨h1, h2⟩
          refine ⟨i, (ih i).mpr ⟨by simpa using h1, fun k hk => ?_⟩, rfl⟩
          simpa using h2 (k + 1) (by omega)

/-- `firstBrace` returns `none` exactly on brace-free texts. -/
theorem firstBrace_eq_none_iff (cs : List Char) :
    firstBrace cs = none ↔ openBrace ∉ cs := by
  induction cs with
  | nil => simp [firstBrace]
  | cons c cs ih =>
    by_cases hc : c = openBrace
    · simp [firstBrace, hc]
    · simp only [firstBrace, if_neg hc, List.mem_cons]
      cases hfb : firstBrace cs with
      | some j =>
        have : openBrace ∈ cs := by
          by_contra hmem
          rw [← ih] at hmem
          rw [hmem] at hfb
          exact Option.noConfusion hfb
        simp [this]
      | none =>
        have : openBrace ∉ cs := ih.mp hfb
        simp [Ne.symm hc, this]

/-- `lastClose` returns `none` exactly when no closing brace occurs. -/
theorem lastClose_eq_none_iff (cs : List Char) :
    lastClose cs = none ↔ closeBrace ∉ cs := by
  induction cs with
  | nil => simp [lastClose]
  | cons c cs ih =>
    simp only [lastClose]
    cases hlc : lastClose cs with
    | some j =>
      have : closeBrace ∈ cs := by
        by_contra hmem
        rw [← ih] at hmem
        rw [hmem] at hlc
        exact Option.noConfusion hlc
      simp [List.mem_cons, this]
    | none =>
      have hmem : closeBrace ∉ cs := ih.mp hlc
      by_cases hcc : c = closeBrace
      · simp [hcc]
      · simp [hcc, hmem, Ne.symm hcc]

/-- `lastClose` finds exactly the last index holding a closing brace. -/
theorem lastClose_eq_some_iff (cs : List Char) (j : Nat) :
    lastClose cs = some j ↔
      cs.get? j = some closeBrace ∧ ∀ k, j < k → cs.get? k ≠ some closeBrace := by
  induction cs generalizing j with
  | nil => simp [lastClose]
  | cons c cs ih =>
    simp only [lastClose]
    cases hlc : lastClose cs with
    | some p =>
      obtain ⟨h1, h2⟩ := (ih p).mp hlc
      constructor
      · rintro ⟨rfl⟩
        refine ⟨by simpa using h1, fun k hk => ?_⟩
        cases k with
        | zero => omega
        | succ k => simpa using h2 k (by omega)
      · rintro ⟨g1, g2⟩
        cases j with
        | zero =>
          exfalso
          exact g2 (p + 1) (by omega) (by simpa using h1)
        | succ j =>
          have : cs.get? j = some closeBrace ∧ ∀ k, j < k → cs.get? k ≠ some closeBrace := by
            refine ⟨by simpa using g1, fun k hk => ?_⟩
            simpa using g2 (k + 1) (by omega)
          have := (ih j).mpr this
          rw [this] at hlc
          simp_all
    | none =>
      have hmem : closeBrace ∉ cs := (lastClose_eq_none_iff cs).mp hlc
      by_cases hcc : c = closeBrace
      · subst hcc
        simp only [if_pos rfl]
        constructor
        · rintro ⟨rfl⟩
          refine ⟨rfl, fun k hk => ?_⟩
          cases k with
          | zero => omega
          | succ k =>
            simp only [List.get?_cons_succ]
            intro hcontra
            exact hmem (List.get?_mem hcontra)
        · rintro ⟨g1, g2⟩
          cases j with
          | zero => rfl
          | succ j =>
            exfalso
            have : cs.get? j = some closeBrace := by simpa using g1
            exact hmem (List.get?_mem this)
      · simp only [if_neg hcc]
        constructor
        · intro h; exact Option.noConfusion h
        · rintro ⟨g1, g2⟩
          exfalso
          cases j with
          | zero =>
            exact hcc (Option.some.inj (by simpa using g1))
          | succ j =>
            have : cs.get? j = some closeBrace := by simpa using g1
            exact hmem (List.get?_mem this)

/-- When an opening brace at `i` is the first one, a closing brace at `j`
is the last one, and `i < j`, the locator selects exactly the inclusive
span between them. -/
theorem locateSpan_eq_some_of (s : String) (i j : Nat)
    (hi : s.toList.get? i = some openBrace)
    (hiF : ∀ k, k < i → s.toList.get? k ≠ some openBrace)
    (hj : s.toList.get? j = some closeBrace)
    (hjL : ∀ k, j < k → s.toList.get? k ≠ some closeBrace)
    (hij : i < j) :
    locateSpan s = some (String.mk ((s.toList.drop i).take (j - i + 1))) := by
  have hfb : firstBrace s.toList = some i := (firstBrace_eq_some_iff _ _).mpr ⟨hi, hiF⟩
  have hlc : lastClose s.toList = some j := (lastClose_eq_some_iff _ _).mpr ⟨hj, hjL⟩
  simp only [locateSpan, hfb, hlc, if_pos hij]

/-- When no opening brace is followed by a closing brace, the regex does
not match. -/
theorem locateSpan_eq_none_of (s : String)
    (h : ¬ ∃ a b, a < b ∧ s.toList.get? a = some openBrace ∧
      s.toList.get? b = some closeBrace) :
    locateSpan s = none := by
  cases hfb : firstBrace s.toList with
  | none => simp only [locateSpan, hfb]
  | some i =>
    cases hlc : lastClose s.toList with
    | none => simp only [locateSpan, hfb, hlc]
    | some j =>
      obtain ⟨hi, _⟩ := (firstBrace_eq_some_iff _ _).mp hfb
      obtain ⟨hj, _⟩ := (lastClose_eq_some_iff _ _).mp hlc
      simp only [locateSpan, hfb, hlc]
      rw [if_neg]
      intro hij
      exact h ⟨i, j, hij, hi, hj⟩

/-! ## The success path of the normalizer/aggregator -/

/-- A JSON array of objects is accepted by the `DataFrame` constructor and
yields exactly those rows. -/
theorem toRows_map_obj (rows : List Mapping) :
    toRows (.arr (rows.map JsonVal.obj)) = .ok rows := by
  have h : toRows.allObj (rows.map JsonVal.obj) = some rows := by
    induction rows with
    | nil => rfl
    | cons r rows ih => simp [toRows.allObj, ih]
  simp [toRows, h]

/-- When the rows are nonempty and each has a numeric `Total`, the `Total`
column is exactly those numbers. -/
theorem getColumn_forall₂ (rows : List Mapping) (qs : List ℚ)
    (hF : List.Forall₂ (fun r q => lookupKey r "Total" = some (.num q)) rows qs)
    (hNE : rows ≠ []) :
    getColumn rows "Total" = .ok (qs.map JsonVal.num) := by
  have hfm : rows.filterMap (fun r => lookupKey r "Total") = qs.map JsonVal.num := by
    clear hNE
    induction hF with
    | nil => rfl
    | cons h _ ih => simp [List.filterMap_cons, h, ih]
  have hguard : rows.all (fun r => (lookupKey r "Total").isNone) = false := by
    cases hF with
    | nil => exact absurd rfl hNE
    | cons h _ => simp [List.all_cons, h]
  have hfilter : (qs.map JsonVal.num).filter (fun v => !v.isNull) = qs.map JsonVal.num := by
    apply List.filter_eq_self.mpr
    intro v hv
    obtain ⟨q, _, rfl⟩ := List.mem_map.mp hv
    rfl
  simp [getColumn, hguard, hfm, hfilter]

/-- Summing an all-numeric column adds the numbers. -/
theorem sumColumn_nums (qs : List ℚ) :
    sumColumn (qs.map JsonVal.num) = .ok (.num qs.sum) := by
  have h1 : (qs.map JsonVal.num).all (fun v => (asNumQ v).isSome) = true := by
    rw [List.all_eq_true]
    intro v hv
    obtain ⟨q, _, rfl⟩ := List.mem_map.mp hv
    rfl
  have h2 : (qs.map JsonVal.num).filterMap asNumQ = qs := by
    induction qs with
    | nil => rfl
    | cons q qs ih => simp [asNumQ, List.filterMap_cons, ih]
  simp [sumColumn, h1, h2]

/-- The success path of lines 122-148: on a decoded object with a
nonempty items array whose items all have numeric totals and a numeric
record `Total`, the render succeeds, the discount is the item-total sum
minus the record total, the items pass through unchanged, and the category
aggregate is whatever `groupTotals` yields (with the warning exactly on
its failure). -/
theorem renderOutputs_ok (kvs : Mapping) (rows : List Mapping) (qs : List ℚ) (t : ℚ)
    (hItems : lookupKey kvs "Items" = some (.arr (rows.map JsonVal.obj)))
    (hNE : rows ≠ [])
    (hF : List.Forall₂ (fun r q => lookupKey r "Total" = some (.num q)) rows qs)
    (hTotal : lookupKey kvs "Total" = some (.num t)) :
    renderOutputs (.obj kvs) = .ok {
      summary := {
        company := dictGet kvs "Company" (.str "Unknown")
        date := dictGet kvs "Date" (.str "Unknown")
        discount := .num (qs.sum - t)
        total := dictGet kvs "Total" (.str "Unknown") }
      items := rows
      category := groupTotals rows
      categoryWarning := (groupTotals rows).isNone } := by
  simp [renderOutputs, hItems, toRows_map_obj, getColumn_forall₂ rows qs hF hNE,
    sumColumn_nums, hTotal, pySub, asNumQ, bind, Except.bind]

/-- Lookups at a key other than the removed one are unaffected. -/
theorem lookupKey_removeKey (m : Mapping) (k k2 : String) (h : k2 ≠ k) :
    lookupKey (removeKey m k) k2 = lookupKey m k2 := by
  induction m with
  | nil => rfl
  | cons kv m ih =>
    obtain ⟨k1, v⟩ := kv
    by_cases h1 : k1 = k
    · subst h1
      have h2 : ¬(k1 = k2) := fun hh => h (hh ▸ rfl)
      simp [removeKey, lookupKey, h2, ih]
    · simp only [removeKey, if_neg h1]
      by_cases h2 : k1 = k2
      · simp [lookupKey, h2]
      · simp [lookupKey, h2, ih]

/-- The render reads only the `Items`, `Total`, `Company` and `Date` keys:
it is insensitive to the presence or value of `Deduction`. -/
theorem renderOutputs_removeKey_deduction (m : Mapping) :
    renderOutputs (.obj (removeKey m "Deduction")) = renderOutputs (.obj m) := by
  have hI := lookupKey_removeKey m "Deduction" "Items" (by decide)
  have hT := lookupKey_removeKey m "Deduction" "Total" (by decide)
  have hC := lookupKey_removeKey m "Deduction" "Company" (by decide)
  have hD := lookupKey_removeKey m "Deduction" "Date" (by decide)
  simp only [renderOutputs, dictGet, hI, hT, hC, hD]

/-! ## Claim C1 — discount is exactly the item-total sum minus the record total -/

/-- C1 (amended): for every decoded receipt whose record `Total` is
numeric and whose nonempty items all carry numeric `Total` fields, the
rendered summary discount is exactly the sum of the item totals minus the
record total — an exact rational difference, unclamped, so a negative
result (surcharge) is preserved with its sign. -/
theorem discount_exact (kvs : Mapping) (rows : List Mapping) (qs : List ℚ) (t : ℚ)
    (hItems : lookupKey kvs "Items" = some (.arr (rows.map JsonVal.obj)))
    (hNE : rows ≠ [])
    (hF : List.Forall₂ (fun r q => lookupKey r "Total" = some (.num q)) rows qs)
    (hTotal : lookupKey kvs "Total" = some (.num t)) :
    ∃ out, renderOutputs (.obj kvs) = .ok out ∧
      out.summary.discount = .num (qs.sum - t) :=
  ⟨_, renderOutputs_ok kvs rows qs t hItems hNE hF hTotal, rfl⟩

/-- C1 witness: one item with total 2 against a record total of 3 renders
successfully with discount `2 - 3` (a negative value, kept as such). -/
theorem discount_exact_witness :
    (renderOutputs (.obj [("Items", JsonVal.arr [.obj [("Total", JsonVal.num 2)]]),
        ("Total", JsonVal.num 3)])).map (fun o => o.summary.discount) =
      .ok (.num (([(2 : ℚ)]).sum - 3)) := by
  obtain ⟨out, h1, h2⟩ := discount_exact
    [("Items", JsonVal.arr [.obj [("Total", JsonVal.num 2)]]), ("Total", JsonVal.num 3)]
    [[("Total", JsonVal.num 2)]] [2] 3 rfl (by simp)
    (List.Forall₂.cons rfl List.Forall₂.nil) rfl
  rw [h1]
  simp [Except.map, h2]

/-- C1 counterexample to the unrestricted claim: a record with numeric
`Total` and an empty items list (all of its per-item totals are vacuously
numeric) does not get a discount at all — the empty items table has no
`Total` column, so line 123 raises `KeyError`, which no `except` clause
catches. -/
theorem discount_empty_items_keyerror :
    renderOutputs c1EmptyItems = .error (.keyError "Total") ∧
    handleRequest (fun _ => some c1EmptyItems) (fun _ _ _ => .success "x\x7by\x7dz") [] "k" 0 =
      .unhandled (.keyError "Total") :=
  ⟨rfl, rfl⟩

/-! ## Claim C2 — a mapping without `total` -/

/-- C2: a decoded mapping with every other field present but no `Total`
key fails (line 127 raises `KeyError("Total")` — the missing-required-field
failure), but this exception is matched by neither top-level `except`
clause, so it propagates unhandled instead of being converted into the
user-facing message. -/
theorem missing_total_keyerror_unhandled :
    renderOutputs c2MissingTotal = .error (.keyError "Total") ∧
    handleRequest (fun _ => some c2MissingTotal) (fun _ _ _ => .success "x\x7by\x7dz")
      [0] "gsk-key" 1 = .unhandled (.keyError "Total") :=
  ⟨rfl, rfl⟩

/-! ## Claim C3 — the greedy JSON locator -/

/-- C3: the locator selects exactly the substring from the first opening
brace through the last closing brace (greedy, newline-spanning); with the
span selected, a decode failure yields `MalformedJson`
(`json.JSONDecodeError`) with no repair attempt, a decode success is
returned as-is, and on any text with no such span the result is the
`NoJsonFound` failure (`ValueError`). -/
theorem json_locator_contract (resultStr : String) (decode : String → Option JsonVal)
    (i j : Nat)
    (hi : resultStr.toList.get? i = some openBrace)
    (hiF : ∀ k, k < i → resultStr.toList.get? k ≠ some openBrace)
    (hj : resultStr.toList.get? j = some closeBrace)
    (hjL : ∀ k, j < k → resultStr.toList.get? k ≠ some closeBrace)
    (hij : i < j) :
    locateSpan resultStr = some (String.mk ((resultStr.toList.drop i).take (j - i + 1))) ∧
    (decode (String.mk ((resultStr.toList.drop i).take (j - i + 1))) = none →
      locateAndParse decode resultStr = .error .jsonDecodeError) ∧
    (∀ v, decode (String.mk ((resultStr.toList.drop i).take (j - i + 1))) = some v →
      locateAndParse decode resultStr = .ok v) ∧
    (∀ s2 : String,
      (¬ ∃ a b, a < b ∧ s2.toList.get? a = some openBrace ∧
        s2.toList.get? b = some closeBrace) →
      locateAndParse decode s2 = .error (.valueError "No valid JSON found in model response.")) := by
  have hspan := locateSpan_eq_some_of resultStr i j hi hiF hj hjL hij
  refine ⟨hspan, ?_, ?_, ?_⟩
  · intro hdec
    simp only [locateAndParse, hspan, hdec]
  · intro v hdec
    simp only [locateAndParse, hspan, hdec]
  · intro s2 h2
    simp only [locateAndParse, locateSpan_eq_none_of s2 h2]

/-- C3 witness: on the text `a\x7b1\x7d` the span between the braces is
selected, and with a decoder that rejects it the pipeline reports the
decode failure. -/
theorem json_locator_contract_witness :
    locateAndParse (fun _ => none) "a\x7b1\x7d" = .error .jsonDecodeError := by
  refine (json_locator_contract "a\x7b1\x7d" (fun _ => none) 1 3 rfl ?_ rfl ?_ (by omega)).2.1 rfl
  · intro k hk
    interval_cases k
    · decide
  · intro k hk
    have hlen : ("a\x7b1\x7d".toList).length = 4 := by decide
    intro hcontra
    obtain ⟨hlt, _⟩ := List.get?_eq_some.mp hcontra
    rw [hlen] at hlt
    omega

/-! ## Claim C4 — failures in the category-grouping step -/

/-- C4 (amended): any failure inside the line-142 grouping/chart block is
non-fatal — provided the summary computation itself succeeded, the render
still returns the summary (with its exact discount) and the unchanged
items, the category aggregate is omitted, and the warning flag is set
instead of aborting the pipeline. -/
theorem grouping_failure_nonfatal (kvs : Mapping) (rows : List Mapping) (qs : List ℚ) (t : ℚ)
    (hItems : lookupKey kvs "Items" = some (.arr (rows.map JsonVal.obj)))
    (hNE : rows ≠ [])
    (hF : List.Forall₂ (fun r q => lookupKey r "Total" = some (.num q)) rows qs)
    (hTotal : lookupKey kvs "Total" = some (.num t))
    (hG : groupTotals rows = none) :
    ∃ out, renderOutputs (.obj kvs) = .ok out ∧
      out.category = none ∧ out.categoryWarning = true ∧
      out.summary.discount = .num (qs.sum - t) ∧ out.items = rows := by
  refine ⟨_, renderOutputs_ok kvs rows qs t hItems hNE hF hTotal, hG, ?_, rfl, rfl⟩
  rw [hG]
  rfl

/-- C4 witness: an item with a numeric total but no `ProductType` key: the
`ProductType` column is absent, so grouping raises and is caught, while
summary and items still render. -/
theorem grouping_failure_nonfatal_witness :
    (renderOutputs (.obj [("Items", JsonVal.arr [.obj [("Total", JsonVal.num 2)]]),
        ("Total", JsonVal.num 2)])).map
      (fun o => (o.category, o.categoryWarning, o.summary.discount, o.items)) =
      .ok (none, true, .num (([(2 : ℚ)]).sum - 2), [[("Total", JsonVal.num 2)]]) := by
  obtain ⟨out, h1, h2, h3, h4, h5⟩ := grouping_failure_nonfatal
    [("Items", JsonVal.arr [.obj [("Total", JsonVal.num 2)]]), ("Total", JsonVal.num 2)]
    [[("Total", JsonVal.num 2)]] [2] 2
    rfl (by simp) (List.Forall₂.cons rfl List.Forall₂.nil) rfl rfl
  rw [h1]
  simp [Except.map, h2, h3, h4, h5]

/-- C4 counterexample to the claim as stated: its own example of a
grouping failure — a non-numeric item `Total` — is fatal, not non-fatal:
the line-123 column sum over a mixed column raises `TypeError` before the
summary is ever built, the whole `try` body is abandoned, and the user
gets the fatal processing-error message with no summary or items output at
all. -/
theorem nonnumeric_item_total_fatal :
    renderOutputs c4MixedTotals = .error .typeError ∧
    handleRequest (fun _ => some c4MixedTotals) (fun _ _ _ => .success "x\x7by\x7dz") [] "k" 0 =
      .processingErrorMessage :=
  ⟨rfl, rfl⟩

/-! ## Claim C5 — classification of extraction failures -/

/-- C5 (amended): a credential rejection (`AuthenticationError`) aborts the
request and is converted into the user-facing invalid-key message; any
other transport/remote failure of the extraction call also aborts the
request, but matches no `except` clause and propagates unhandled instead
of being surfaced as a user-facing message. -/
theorem extraction_failure_handling (decode : String → Option JsonVal)
    (img : List Nat) (key : String) (n : Nat) :
    handleRequest decode (fun _ _ _ => .authRejected) img key n = .authErrorMessage ∧
    handleRequest decode (fun _ _ _ => .serviceFailure) img key n = .unhandled .apiError :=
  ⟨rfl, rfl⟩

/-- C5 counterexample to the claim as stated: a non-authentication service
failure is not surfaced to the user — it escapes both `except` clauses. -/
theorem service_failure_unhandled :
    handleRequest (fun _ => none) (fun _ _ _ => .serviceFailure) [] "k" 0 =
      .unhandled .apiError :=
  rfl

/-! ## Claim C6 — defaulting of `company` and `date`, no defaulting of
`deduction` -/

/-- C6 (amended): on a decoded mapping with numeric `Total` and a nonempty
items array of numeric-total items, normalization succeeds; an absent
`Company` (resp. `Date`) is rendered as the string "Unknown"; and the
render is completely insensitive to the `Deduction` key — in particular an
absent deduction is never defaulted to zero (it is never read at all). -/
theorem normalize_defaults (kvs : Mapping) (rows : List Mapping) (qs : List ℚ) (t : ℚ)
    (hItems : lookupKey kvs "Items" = some (.arr (rows.map JsonVal.obj)))
    (hNE : rows ≠ [])
    (hF : List.Forall₂ (fun r q => lookupKey r "Total" = some (.num q)) rows qs)
    (hTotal : lookupKey kvs "Total" = some (.num t)) :
    ∃ out, renderOutputs (.obj kvs) = .ok out ∧
      (lookupKey kvs "Company" = none → out.summary.company = .str "Unknown") ∧
      (lookupKey kvs "Date" = none → out.summary.date = .str "Unknown") ∧
      (∀ m : Mapping, renderOutputs (.obj (removeKey m "Deduction")) = renderOutputs (.obj m)) := by
  refine ⟨_, renderOutputs_ok kvs rows qs t hItems hNE hF hTotal, ?_, ?_,
    renderOutputs_removeKey_deduction⟩
  · intro h
    simp [dictGet, h]
  · intro h
    simp [dictGet, h]

/-- C6 witness: a mapping with `Items` and `Total` only renders with
company and date both defaulted to "Unknown". -/
theorem normalize_defaults_witness :
    (renderOutputs (.obj [("Items", JsonVal.arr [.obj [("Total", JsonVal.num 2)]]),
        ("Total", JsonVal.num 2)])).map (fun o => (o.summary.company, o.summary.date)) =
      .ok (.str "Unknown", .str "Unknown") := by
  obtain ⟨out, h1, hC, hD, _⟩ := normalize_defaults
    [("Items", JsonVal.arr [.obj [("Total", JsonVal.num 2)]]), ("Total", JsonVal.num 2)]
    [[("Total", JsonVal.num 2)]] [2] 2 rfl
    (by simp) (List.Forall₂.cons rfl List.Forall₂.nil) rfl
  rw [h1]
  simp [Except.map, hC rfl, hD rfl]

/-- C6 counterexample to the claim as stated: a mapping that does contain
`total` and `items` (an empty array) and lacks `company` does not succeed
with defaults — the empty items table has no `Total` column, so line 123
raises an uncaught `KeyError`. -/
theorem normalize_empty_items_unhandled :
    lookupKey [("Items", JsonVal.arr []), ("Total", JsonVal.num 3)] "Company" = none ∧
    renderOutputs c6EmptyItemsNoCompany = .error (.keyError "Total") ∧
    handleRequest (fun _ => some c6EmptyItemsNoCompany) (fun _ _ _ => .success "x\x7by\x7dz")
      [] "k" 0 = .unhandled (.keyError "Total") :=
  ⟨rfl, rfl, rfl⟩

/-! ## Claim C7 — the prompt builder -/

set_option maxRecDepth 10000 in
/-- C7: the prompt is a pure function of the expected item count: the
fixed field-enumerating instruction always opens the prompt, the JSON-only
directive is always contained in it, and the exact-count hard constraint
is appended if and only if the expected count is positive. -/
theorem prompt_builder_contract (n : Nat) :
    basePromptText.toList <+: (promptText n).toList ∧
    jsonOnlyDirective.toList <:+: (promptText n).toList ∧
    (promptText n = basePromptText ++ countConstraintText n ↔ 0 < n) := by
  have happ : ∀ s : String, (basePromptText ++ s).toList = basePromptText.toList ++ s.toList :=
    fun s => String.data_append basePromptText s
  have hdirective : jsonOnlyDirective.toList <:+: basePromptText.toList := by decide
  refine ⟨?_, ?_, ?_⟩
  · by_cases hn : n > 0
    · simp only [promptText, if_pos hn, happ]
      exact List.prefix_append _ _
    · simp only [promptText, if_neg hn, happ]
      exact List.prefix_append _ _
  · by_cases hn : n > 0
    · simp only [promptText, if_pos hn, happ]
      exact hdirective.trans (List.prefix_append _ _).isInfix
    · simp only [promptText, if_neg hn, happ]
      exact hdirective.trans (List.prefix_append _ _).isInfix
  · constructor
    · intro h
      by_contra hn
      have hn0 : n = 0 := by omega
      subst hn0
      simp only [promptText, if_neg (by omega : ¬(0 : Nat) > 0)] at h
      have hlen := congrArg String.length h
      rw [String.length_append, String.length_append] at hlen
      have he : ("" : String).length = 0 := rfl
      have h0 : (countConstraintText 0).length > 0 := by decide
      omega
    · intro hn
      simp only [promptText, if_pos hn]

/-! ## Claim C8 — the cache avoids a second billable call -/

/-- C8: with no fresh cache entry for the request triple, a successful
first invocation calls the service and memoizes its output; a second
invocation with the identical (image bytes, credential, expected count)
triple within the time-to-live window returns the identical output, leaves
the cache unchanged, and does not invoke the service again. -/
theorem cache_hit_no_second_call
    (decode : String → Option JsonVal) (service : Service) (c : CacheState)
    (img : List Nat) (key : String) (n : Nat) (t1 t2 : Nat) (v : JsonVal)
    (hMiss : lookupCache c (img, key, n) t1 = none)
    (hOk : processReceipt decode service img key n = .ok v)
    (h12 : t1 ≤ t2)
    (hWin : t2 - t1 < cacheTTL) :
    cachedProcessReceipt decode service c t1 img key n =
      (.ok v, ⟨((img, key, n), t1, v) :: c.entries⟩, true) ∧
    cachedProcessReceipt decode service ⟨((img, key, n), t1, v) :: c.entries⟩ t2 img key n =
      (.ok v, ⟨((img, key, n), t1, v) :: c.entries⟩, false) := by
  constructor
  · simp [cachedProcessReceipt, hMiss, hOk]
  · have hhit : lookupCache ⟨((img, key, n), t1, v) :: c.entries⟩ (img, key, n) t2 = some v := by
      simp [lookupCache, List.find?, hWin]
    simp [cachedProcessReceipt, hhit]

/-- C8 witness: a concrete first call at time 5 on an empty cache invokes
the service and stores the decoded receipt; the repeat call at time 100
(inside the 3600-second window) returns the identical output without a
service invocation. -/
theorem cache_hit_no_second_call_witness :
    cachedProcessReceipt c8Decode c8Service ⟨[]⟩ 5 [0] "gsk-key" 1 =
      (.ok c8Value, ⟨[(([0], "gsk-key", 1), 5, c8Value)]⟩, true) ∧
    cachedProcessReceipt c8Decode c8Service ⟨[(([0], "gsk-key", 1), 5, c8Value)]⟩ 100
        [0] "gsk-key" 1 =
      (.ok c8Value, ⟨[(([0], "gsk-key", 1), 5, c8Value)]⟩, false) :=
  cache_hit_no_second_call c8Decode c8Service ⟨[]⟩ [0] "gsk-key" 1 5 100 c8Value
    rfl rfl (by omega) (by decide)

/-! ## Claim C9 — productType handling -/

/-- C9 (amended): the pipeline passes every item through unchanged — a
productType outside the closed category set is preserved as-is, and the
code itself never assigns "unknown": an absent productType simply stays
absent (only the prompt asks the model to emit "unknown" for unidentified
items). -/
theorem productType_passthrough (kvs : Mapping) (rows : List Mapping) (qs : List ℚ) (t : ℚ)
    (hItems : lookupKey kvs "Items" = some (.arr (rows.map JsonVal.obj)))
    (hNE : rows ≠ [])
    (hF : List.Forall₂ (fun r q => lookupKey r "Total" = some (.num q)) rows qs)
    (hTotal : lookupKey kvs "Total" = some (.num t)) :
    ∃ out, renderOutputs (.obj kvs) = .ok out ∧ out.items = rows :=
  ⟨_, renderOutputs_ok kvs rows qs t hItems hNE hF hTotal, rfl⟩

/-- C9 witness: an item with the out-of-set productType "spaceship fuel"
and an item with no productType at all both come through verbatim. -/
theorem productType_passthrough_witness :
    (renderOutputs (.obj [("Items", JsonVal.arr
        [.obj [("Total", JsonVal.num 2), ("ProductType", JsonVal.str "spaceship fuel")],
         .obj [("Total", JsonVal.num 3)]]),
        ("Total", JsonVal.num 5)])).map (fun o => o.items) =
      .ok [[("Total", JsonVal.num 2), ("ProductType", JsonVal.str "spaceship fuel")],
           [("Total", JsonVal.num 3)]] := by
  obtain ⟨out, h1, h2⟩ := productType_passthrough
    [("Items", JsonVal.arr
        [.obj [("Total", JsonVal.num 2), ("ProductType", JsonVal.str "spaceship fuel")],
         .obj [("Total", JsonVal.num 3)]]),
     ("Total", JsonVal.num 5)]
    [[("Total", JsonVal.num 2), ("ProductType", JsonVal.str "spaceship fuel")],
     [("Total", JsonVal.num 3)]] [2, 3] 5 rfl (by simp)
    (List.Forall₂.cons rfl (List.Forall₂.cons rfl List.Forall₂.nil)) rfl
  rw [h1]
  simp [Except.map, h2]

/-- C9 counterexample to the claim as stated: an item whose productType is
literally absent is not flagged "unknown" — the rendered items keep the
productType cell absent. -/
theorem productType_absent_stays_absent :
    (renderOutputs c9NoProductType).map
        (fun o => o.items.map (fun r => lookupKey r "ProductType")) =
      .ok [none] ∧
    (renderOutputs c9NoProductType).map (fun o => o.items) = .ok [[("Total", JsonVal.num 2)]] :=
  ⟨rfl, rfl⟩

/-! ## Claim C10 — an opening brace with no closing brace after it -/

/-- C10: on any text that contains an opening brace but where every
closing brace precedes every opening brace (in particular, no closing
brace at all), the locator reports exactly the same `NoJsonFound`
failure as on brace-free text: no decode is ever attempted (the outcome is
the same for every decoder) and `MalformedJson` is never reported. -/
theorem locator_close_before_open (resultStr : String)
    (decode decode2 : String → Option JsonVal)
    (hopen : ∃ i, resultStr.toList.get? i = some openBrace)
    (horder : ∀ i j, resultStr.toList.get? i = some openBrace →
        resultStr.toList.get? j = some closeBrace → j < i) :
    locateSpan resultStr = none ∧
    locateAndParse decode resultStr = .error (.valueError "No valid JSON found in model response.") ∧
    locateAndParse decode resultStr = locateAndParse decode2 resultStr ∧
    (∀ s2 : String, openBrace ∉ s2.toList →
      locateAndParse decode s2 = locateAndParse decode resultStr) := by
  have hnone : locateSpan resultStr = none := by
    apply locateSpan_eq_none_of
    rintro ⟨a, b, hab, ha, hb⟩
    exact absurd hab (by have := horder a b ha hb; omega)
  have hnp : locateAndParse decode resultStr
      = .error (.valueError "No valid JSON found in model response.") := by
    simp only [locateAndParse, hnone]
  refine ⟨hnone, hnp, ?_, ?_⟩
  · simp only [locateAndParse, hnone]
  · intro s2 h2
    have hfb2 : firstBrace s2.toList = none := (firstBrace_eq_none_iff _).mpr h2
    rw [hnp]
    simp only [locateAndParse, locateSpan, hfb2]

/-- C10 witness: the text `\x7dab\x7b` — its only closing brace precedes
its only opening brace — produces the `NoJsonFound` failure. -/
theorem locator_close_before_open_witness :
    locateAndParse (fun _ => none) "\x7dab\x7b" =
      .error (.valueError "No valid JSON found in model response.") := by
  refine ((locator_close_before_open "\x7dab\x7b" (fun _ => none)
    (fun _ => some JsonVal.null) ⟨3, rfl⟩ ?_).2.1)
  intro i j hi hj
  have hlen : ("\x7dab\x7b".toList).length = 4 := by decide
  obtain ⟨hiL, _⟩ := List.get?_eq_some.mp hi
  obtain ⟨hjL, _⟩ := List.get?_eq_some.mp hj
  rw [hlen] at hiL hjL
  interval_cases i <;> interval_cases j <;> revert hi hj <;> decide
